import Mathlib

/-!
Verification of the signup component of the `join` web application
(`src/app/landingpage/signup/signup.component.ts`).

The component state, the per-field validators, the privacy auto-validation
and the registration flow are embedded shallowly: component fields become a
Lean structure, the external services (Auth, Contact, Feedback, Router) are
modelled by an environment record plus an explicit effect trace, and the
regular expression used for e-mail validation is embedded as an executable
matcher with the same language.
-/

namespace Signup

/-- `Userdata` interface: name, email, password, confirmPassword. -/
structure Userdata where
  name : String
  email : String
  password : String
  confirmPassword : String
  deriving DecidableEq, Repr

/-- A contact record as passed to `ContactService.addContact`. -/
structure Contact where
  name : String
  email : String
  phone : String
  deriving DecidableEq, Repr

/-- The mutable fields of `SignupComponent`. -/
structure SignupState where
  invalidFields : List String
  privacyAccepted : Bool
  showPrivacy : Bool
  newUserData : Userdata
  name : String
  email : String
  password : String
  passwordConfirm : String
  error : String
  privacyError : Bool
  showPrivacyError : Bool
  passwordVisible : Bool
  confirmPasswordVisible : Bool
  passwordEntered : Bool
  confirmPasswordEntered : Bool
  deriving DecidableEq, Repr

/-- The field initializers of `SignupComponent`. -/
def initState : SignupState where
  invalidFields := []
  privacyAccepted := false
  showPrivacy := false
  newUserData := ⟨"", "", "", ""⟩
  name := ""
  email := ""
  password := ""
  passwordConfirm := ""
  error := ""
  privacyError := false
  showPrivacyError := false
  passwordVisible := false
  confirmPasswordVisible := false
  passwordEntered := false
  confirmPasswordEntered := false

/-- Character class `[a-zA-Z0-9._%+-]` (local part of the e-mail regex). -/
def isLocalChar (c : Char) : Bool :=
  c.isAlphanum || c = '.' || c = '_' || c = '%' || c = '+' || c = '-'

/-- Character class `[a-zA-Z0-9.-]` (domain part of the e-mail regex). -/
def isDomainChar (c : Char) : Bool :=
  c.isAlphanum || c = '.' || c = '-'

/-- Split a character list at the first occurrence of `c`; `none` when `c`
does not occur. -/
def splitAtFirst (c : Char) : List Char → Option (List Char × List Char)
  | [] => none
  | x :: xs =>
    if x = c then some ([], xs)
    else
      match splitAtFirst c xs with
      | some (l, r) => some (x :: l, r)
      | none => none

/-- Executable matcher for the anchored regular expression
`/^[a-zA-Z0-9._%+-]+@[a-zA-Z0-9.-]+\.[a-zA-Z]\x7b2,\x7d$/` used by both
`isFormValid` and `validateMail`.  Neither character class contains `@`, so a
match splits the string at its unique usable `@`; the top-level-domain part
is alphabetic, hence dot-free, so it is the segment after the last `.` of the
remainder. -/
def emailRegexTest (s : String) : Bool :=
  match splitAtFirst '@' s.toList with
  | none => false
  | some (loc, rest) =>
    !loc.isEmpty && loc.all isLocalChar &&
      (match splitAtFirst '.' rest.reverse with
       | none => false
       | some (revTld, revDom) =>
         let tld := revTld.reverse
         let dom := revDom.reverse
         !dom.isEmpty && dom.all isDomainChar &&
           decide (2 ≤ tld.length) && tld.all Char.isAlpha)

/-- `trim()`: drop whitespace from both ends of a string. -/
def trimStr (s : String) : String :=
  String.mk (((s.toList.dropWhile Char.isWhitespace).reverse.dropWhile
    Char.isWhitespace).reverse)

/-- `toLowerCase()`: lower-case a string character by character. -/
def toLowerStr (s : String) : String :=
  String.mk (s.toList.map Char.toLower)

/-- Getter `isFormValid`: name ≥ 2 trimmed chars, e-mail matches the regex,
password and confirmation ≥ 6 chars. -/
def isFormValid (s : SignupState) : Bool :=
  decide (2 ≤ (trimStr s.name).length) && emailRegexTest s.email &&
    decide (6 ≤ s.password.length) && decide (6 ≤ s.passwordConfirm.length)

/-- The `addFieldIfInvalid` closure of `validateForm`: push the field name
when the condition holds and it is absent, filter it out when the condition
fails, leave the array alone otherwise. -/
def addFieldIfInvalid (condition : Bool) (fieldName : String)
    (invalidFields : List String) : List String :=
  if condition && !(invalidFields.contains fieldName) then
    invalidFields ++ [fieldName]
  else if !condition then
    invalidFields.filter (fun f => f ≠ fieldName)
  else
    invalidFields

/-- `validateName`: invalid when the name is empty or shorter than 2 trimmed
characters. -/
def nameInvalid (s : SignupState) : Bool :=
  s.name.isEmpty || decide ((trimStr s.name).length < 2)

/-- `validateMail`: the e-mail is trimmed and lower-cased, then invalid when
empty or failing the regex. -/
def mailInvalid (s : SignupState) : Bool :=
  let email := toLowerStr (trimStr s.email)
  email.isEmpty || !emailRegexTest email

/-- `validatePassword`'s own condition: invalid when the password is empty or
shorter than 6 characters. -/
def passwordInvalid (s : SignupState) : Bool :=
  s.password.isEmpty || decide (s.password.length < 6)

/-- `validateConfirmedPassword`'s condition: invalid when the confirmation
differs from the password. -/
def confirmInvalid (s : SignupState) : Bool :=
  s.passwordConfirm ≠ s.password

/-- `autoValidatePrivacyIfReady`: `showPrivacyError` becomes true exactly
when the invalid-field array is empty, `isFormValid` holds and the privacy
checkbox is unchecked. -/
def autoValidatePrivacyIfReady (s : SignupState) : SignupState :=
  { s with showPrivacyError :=
      (decide (s.invalidFields.length = 0) && isFormValid s) && !s.privacyAccepted }

/-- `validateName`'s effect on the state. -/
def validateNameStep (s : SignupState) : SignupState :=
  { s with invalidFields := addFieldIfInvalid (nameInvalid s) "name" s.invalidFields }

/-- `validateMail`'s effect on the state. -/
def validateMailStep (s : SignupState) : SignupState :=
  { s with invalidFields := addFieldIfInvalid (mailInvalid s) "email" s.invalidFields }

/-- `validateConfirmedPassword`'s effect on the state. -/
def validateConfirmedPasswordStep (s : SignupState) : SignupState :=
  { s with invalidFields :=
      addFieldIfInvalid (confirmInvalid s) "confirmPassword" s.invalidFields }

/-- `validatePassword`'s effect: validate the password, then, when
`newUserData.confirmPassword` is truthy, recursively run
`validateForm('confirmPassword')` (the confirmation check followed by the
privacy auto-validation). -/
def validatePasswordStep (s : SignupState) : SignupState :=
  let s1 := { s with invalidFields :=
      addFieldIfInvalid (passwordInvalid s) "password" s.invalidFields }
  if s1.newUserData.confirmPassword.isEmpty then s1
  else autoValidatePrivacyIfReady (validateConfirmedPasswordStep s1)

/-- `validateForm(field)`: the four independent `if` statements followed by
`autoValidatePrivacyIfReady`. -/
def validateForm (field : String) (s : SignupState) : SignupState :=
  let s1 := if field = "name" then validateNameStep s else s
  let s2 := if field = "email" then validateMailStep s1 else s1
  let s3 := if field = "password" then validatePasswordStep s2 else s2
  let s4 := if field = "confirmPassword" then validateConfirmedPasswordStep s3 else s3
  autoValidatePrivacyIfReady s4

/-- `validatePrivacy`: delegates to `autoValidatePrivacyIfReady`. -/
def validatePrivacy (s : SignupState) : SignupState :=
  autoValidatePrivacyIfReady s

/-- Observable calls into the injected services (Auth, Contact, Router,
Feedback) made by the component. -/
inductive Eff where
  | register (email password name : String)
  | addContact (c : Contact)
  | setUserLoggedIn (user : String)
  | navigate (path : String)
  | feedback (msg : String)
  deriving DecidableEq, Repr

/-- Does an effect record a `ContactService.addContact` call? -/
def isAddContactEff : Eff → Bool
  | Eff.addContact _ => true
  | _ => false

/-- The behaviour of the external services during one `onRegister` run:
whether `authService.register` resolves or rejects (with which message),
likewise `contactService.addContact`, the current contact list, and
`authService.getUsername`. -/
structure Env where
  registerResult : Except String Unit
  addContactResult : Except String Unit
  contactList : List Contact
  getUsername : String → String

/-- `checkIfMailinUseInContact`: some contact in the contact list has the
entered e-mail. -/
def checkIfMailinUseInContact (env : Env) (s : SignupState) : Bool :=
  env.contactList.any (fun c => c.email = s.email)

/-- `onRegister`: when password equals confirmation, call
`authService.register`; on success optionally `addContact` (skipped when the
e-mail is already in the contact list), set the logged-in user, navigate to
`/login` and show the success notice; any rejection inside the `try` block
sets `error` to the thrown message and nothing further runs.  The returned
list is the trace of service calls in order. -/
def onRegister (env : Env) (s : SignupState) : SignupState × List Eff :=
  if s.password = s.passwordConfirm then
    match env.registerResult with
    | Except.error msg =>
      ({ s with error := msg }, [Eff.register s.email s.password s.name])
    | Except.ok _ =>
      if checkIfMailinUseInContact env s then
        (s, [Eff.register s.email s.password s.name,
             Eff.setUserLoggedIn (env.getUsername s.email),
             Eff.navigate "/login",
             Eff.feedback "Registration successful"])
      else
        match env.addContactResult with
        | Except.error msg =>
          ({ s with error := msg },
           [Eff.register s.email s.password s.name,
            Eff.addContact ⟨s.name, s.email, "Not existing yet"⟩])
        | Except.ok _ =>
          (s, [Eff.register s.email s.password s.name,
               Eff.addContact ⟨s.name, s.email, "Not existing yet"⟩,
               Eff.setUserLoggedIn (env.getUsername s.email),
               Eff.navigate "/login",
               Eff.feedback "Registration successful"])
  else
    (s, [])

/-- The two password fields, as passed to `onPasswordInput` and
`togglePasswordVisibility`. -/
inductive PwField where
  | password
  | confirmPassword
  deriving DecidableEq, Repr

/-- `onPasswordInput`: track whether the user has typed into a password
field and reset its visibility on empty input. -/
def onPasswordInput (field : PwField) (s : SignupState) : SignupState :=
  match field with
  | PwField.password =>
    let entered := decide (0 < s.password.length)
    { s with passwordEntered := entered,
             passwordVisible := if entered then s.passwordVisible else false }
  | PwField.confirmPassword =>
    let entered := decide (0 < s.passwordConfirm.length)
    { s with confirmPasswordEntered := entered,
             confirmPasswordVisible :=
               if entered then s.confirmPasswordVisible else false }

/-- `togglePasswordVisibility`: flip a visibility flag, but only when the
corresponding field has been typed into. -/
def togglePasswordVisibility (field : PwField) (s : SignupState) : SignupState :=
  match field with
  | PwField.password =>
    if s.passwordEntered then { s with passwordVisible := !s.passwordVisible } else s
  | PwField.confirmPassword =>
    if s.confirmPasswordEntered then
      { s with confirmPasswordVisible := !s.confirmPasswordVisible }
    else s

/-- `closePrivacy`: hide the privacy dialog. -/
def closePrivacy (s : SignupState) : SignupState :=
  { s with showPrivacy := false }

/-- The operations that can touch the component state: the template's
two-way bindings writing the input fields and the checkbox, and the
component's public methods.  `goToAnotherPage` and `onBackClick` only
navigate and are omitted as state identities. -/
inductive Op where
  | setName (v : String)
  | setEmail (v : String)
  | setPassword (v : String)
  | setPasswordConfirm (v : String)
  | setPrivacyAccepted (b : Bool)
  | openPrivacy (b : Bool)
  | passwordInput (f : PwField)
  | toggleVisibility (f : PwField)
  | doValidatePrivacy
  | doValidateForm (field : String)
  | doRegister (env : Env)
  | doClosePrivacy

/-- One operation's effect on the component state. -/
def applyOp (op : Op) (s : SignupState) : SignupState :=
  match op with
  | Op.setName v => { s with name := v }
  | Op.setEmail v => { s with email := v }
  | Op.setPassword v => { s with password := v }
  | Op.setPasswordConfirm v => { s with passwordConfirm := v }
  | Op.setPrivacyAccepted b => { s with privacyAccepted := b }
  | Op.openPrivacy b => { s with showPrivacy := b }
  | Op.passwordInput f => onPasswordInput f s
  | Op.toggleVisibility f => togglePasswordVisibility f s
  | Op.doValidatePrivacy => validatePrivacy s
  | Op.doValidateForm field => validateForm field s
  | Op.doRegister env => (onRegister env s).1
  | Op.doClosePrivacy => closePrivacy s

/-- Run a sequence of operations from a state, earliest first. -/
def runOps (ops : List Op) (s : SignupState) : SignupState :=
  match ops with
  | [] => s
  | op :: rest => runOps rest (applyOp op s)

/-- The individual validity checks performed by `validateForm field` on a
state, in execution order: each is the checked field name paired with the
`isInvalid` value the check computed. -/
def checksOf (field : String) (s : SignupState) : List (String × Bool) :=
  (if field = "name" then [("name", nameInvalid s)] else []) ++
  (if field = "email" then [("email", mailInvalid s)] else []) ++
  (if field = "password" then
    ("password", passwordInvalid s) ::
      (if s.newUserData.confirmPassword.isEmpty then []
       else [("confirmPassword", confirmInvalid s)])
   else []) ++
  (if field = "confirmPassword" then [("confirmPassword", confirmInvalid s)] else [])

/-- Ghost history of validation checks: most recent first.  `lookup` finds
the most recent check of a field. -/
def recordChecks (cs : List (String × Bool)) (g : List (String × Bool)) :
    List (String × Bool) :=
  cs.reverse ++ g

/-- The validity checks an operation performs (only `validateForm` checks
fields). -/
def opChecks (op : Op) (s : SignupState) : List (String × Bool) :=
  match op with
  | Op.doValidateForm field => checksOf field s
  | _ => []

/-- Run operations threading the ghost check history. -/
def runOpsG (ops : List Op) (s : SignupState) (g : List (String × Bool)) :
    SignupState × List (String × Bool) :=
  match ops with
  | [] => (s, g)
  | op :: rest => runOpsG rest (applyOp op s) (recordChecks (opChecks op s) g)

/-- The invariant of the invalid-field set: a field name is in the set
exactly when its most recent validation check reported it invalid (so a
never-checked name is absent). -/
def InvalidInv (s : SignupState) (g : List (String × Bool)) : Prop :=
  ∀ f : String, f ∈ s.invalidFields ↔ g.lookup f = some true

/-! ## Lemmas about the validator primitives -/

/-- Membership after `addFieldIfInvalid`: the updated field is present
exactly when the condition held; every other field keeps its membership. -/
theorem mem_addFieldIfInvalid (f n : String) (c : Bool) (l : List String) :
    f ∈ addFieldIfInvalid c n l ↔ if f = n then c = true else f ∈ l := by
  unfold addFieldIfInvalid
  by_cases hc : c = true
  · by_cases hm : l.contains n
    · have hn : n ∈ l := by simpa using hm
      simp only [hc, hm, Bool.not_true, Bool.and_false, Bool.false_eq_true,
        if_false, Bool.not_false, if_true]
      by_cases hf : f = n
      · subst hf; simp [hn]
      · simp [hf]
    · simp only [hc, hm, Bool.not_false, Bool.and_true, if_true]
      by_cases hf : f = n
      · subst hf; simp
      · simp [hf]
  · have hc0 : c = false := by simpa using hc
    subst hc0
    simp only [Bool.false_and, Bool.false_eq_true, if_false, Bool.not_false,
      if_true, List.mem_filter]
    by_cases hf : f = n
    · subst hf; simp
    · simp [hf]

/-- Recording one more check extends the invariant. -/
theorem InvalidInv_add (l : List String) (g : List (String × Bool))
    (h : ∀ f, f ∈ l ↔ g.lookup f = some true) (c : Bool) (n : String) :
    ∀ f, f ∈ addFieldIfInvalid c n l ↔ ((n, c) :: g).lookup f = some true := by
  intro f
  rw [mem_addFieldIfInvalid]
  by_cases hf : f = n
  · subst hf; simp [List.lookup]
  · have hb : (f == n) = false := by simpa using hf
    simp [List.lookup, hb, hf, h f]

/-- `autoValidatePrivacyIfReady` only writes `showPrivacyError`. -/
theorem auto_invalidFields (s : SignupState) :
    (autoValidatePrivacyIfReady s).invalidFields = s.invalidFields := rfl

/-- `showPrivacyError` after the auto-validation, spelled as a proposition on
the resulting state. -/
theorem auto_showPrivacyError_iff (s : SignupState) :
    (autoValidatePrivacyIfReady s).showPrivacyError = true ↔
      ((autoValidatePrivacyIfReady s).invalidFields = [] ∧
       isFormValid (autoValidatePrivacyIfReady s) = true ∧
       (autoValidatePrivacyIfReady s).privacyAccepted = false) := by
  have h1 : (autoValidatePrivacyIfReady s).showPrivacyError =
      ((decide (s.invalidFields.length = 0) && isFormValid s) && !s.privacyAccepted) := rfl
  have h2 : isFormValid (autoValidatePrivacyIfReady s) = isFormValid s := rfl
  have h3 : (autoValidatePrivacyIfReady s).privacyAccepted = s.privacyAccepted := rfl
  rw [h1, h2, h3, auto_invalidFields]
  simp [List.length_eq_zero, Bool.not_eq_true', and_assoc]

/-- `onRegister` changes at most the `error` field of the component. -/
theorem onRegister_fst (env : Env) (s : SignupState) :
    ∃ e, (onRegister env s).1 = { s with error := e } := by
  unfold onRegister
  by_cases h : s.password = s.passwordConfirm
  · rw [if_pos h]
    rcases env.registerResult with msg | u
    · exact ⟨msg, rfl⟩
    · by_cases hm : checkIfMailinUseInContact env s = true
      · rw [if_pos hm]
        exact ⟨s.error, rfl⟩
      · rw [if_neg hm]
        rcases env.addContactResult with msg | u
        · exact ⟨msg, rfl⟩
        · exact ⟨s.error, rfl⟩
  · rw [if_neg h]
    exact ⟨s.error, rfl⟩

/-- `onRegister` leaves the invalid-field set unchanged. -/
theorem onRegister_invalidFields (env : Env) (s : SignupState) :
    ((onRegister env s).1).invalidFields = s.invalidFields := by
  obtain ⟨e, he⟩ := onRegister_fst env s
  rw [he]

/-- `onRegister` leaves `newUserData` unchanged. -/
theorem onRegister_newUserData (env : Env) (s : SignupState) :
    ((onRegister env s).1).newUserData = s.newUserData := by
  obtain ⟨e, he⟩ := onRegister_fst env s
  rw [he]

/-- `validateForm` establishes the invariant against its own recorded
checks. -/
theorem invariant_validateForm (field : String) (s : SignupState)
    (g : List (String × Bool)) (h : InvalidInv s g) :
    InvalidInv (validateForm field s) (recordChecks (checksOf field s) g) := by
  by_cases h1 : field = "name"
  · subst h1
    simp only [validateForm, checksOf, recordChecks, if_true, if_false,
      String.reduceEq, List.reverse_cons, List.reverse_nil, List.nil_append,
      List.append_nil, List.cons_append]
    exact InvalidInv_add s.invalidFields g h (nameInvalid s) "name"
  · by_cases h2 : field = "email"
    · subst h2
      simp only [validateForm, checksOf, recordChecks, if_true, if_false,
        String.reduceEq, List.reverse_cons, List.reverse_nil, List.nil_append,
        List.append_nil, List.cons_append]
      exact InvalidInv_add s.invalidFields g h (mailInvalid s) "email"
    · by_cases h3 : field = "password"
      · subst h3
        simp only [validateForm, checksOf, recordChecks, if_true, if_false,
          String.reduceEq]
        by_cases hE : s.newUserData.confirmPassword.isEmpty = true
        · simp only [validatePasswordStep, hE, if_true, List.reverse_cons,
            List.reverse_nil, List.nil_append, List.append_nil, List.cons_append]
          exact InvalidInv_add s.invalidFields g h (passwordInvalid s) "password"
        · simp only [validatePasswordStep, hE, if_false, Bool.false_eq_true,
            List.reverse_cons, List.reverse_nil, List.nil_append,
            List.append_nil, List.cons_append, List.singleton_append]
          exact InvalidInv_add _ _
            (InvalidInv_add s.invalidFields g h (passwordInvalid s) "password")
            (confirmInvalid s) "confirmPassword"
      · by_cases h4 : field = "confirmPassword"
        · subst h4
          simp only [validateForm, checksOf, recordChecks, if_true, if_false,
            String.reduceEq, List.reverse_cons, List.reverse_nil,
            List.nil_append, List.append_nil, List.cons_append]
          exact InvalidInv_add s.invalidFields g h (confirmInvalid s) "confirmPassword"
        · simp only [validateForm, checksOf, recordChecks, h1, h2, h3, h4,
            if_false, List.reverse_nil, List.nil_append, List.append_nil]
          exact h

/-- Every single operation preserves the invariant. -/
theorem invariant_step (op : Op) (s : SignupState) (g : List (String × Bool))
    (h : InvalidInv s g) :
    InvalidInv (applyOp op s) (recordChecks (opChecks op s) g) := by
  cases op with
  | setName v => exact h
  | setEmail v => exact h
  | setPassword v => exact h
  | setPasswordConfirm v => exact h
  | setPrivacyAccepted b => exact h
  | openPrivacy b => exact h
  | passwordInput f => cases f <;> exact h
  | toggleVisibility f =>
    cases f <;> intro fn <;>
      simp only [applyOp, togglePasswordVisibility] <;> split <;> exact h fn
  | doValidatePrivacy => exact h
  | doValidateForm field => exact invariant_validateForm field s g h
  | doRegister env =>
    intro fn
    show fn ∈ ((onRegister env s).1).invalidFields ↔ _
    rw [onRegister_invalidFields]
    exact h fn
  | doClosePrivacy => exact h

/-- Running a trace preserves the invariant. -/
theorem runOpsG_invariant (ops : List Op) :
    ∀ s g, InvalidInv s g → InvalidInv (runOpsG ops s g).1 (runOpsG ops s g).2 := by
  induction ops with
  | nil => intro s g h; exact h
  | cons op rest ih => intro s g h; exact ih _ _ (invariant_step op s g h)

/-- The ghost-threaded run computes the same state as the plain run. -/
theorem runOpsG_fst (ops : List Op) :
    ∀ s g, (runOpsG ops s g).1 = runOps ops s := by
  induction ops with
  | nil => intro s g; rfl
  | cons op rest ih => intro s g; exact ih _ _

/-- `autoValidatePrivacyIfReady` keeps `newUserData`. -/
theorem newUserData_auto (s : SignupState) :
    (autoValidatePrivacyIfReady s).newUserData = s.newUserData := rfl

/-- `validateName` keeps `newUserData`. -/
theorem newUserData_nameStep (s : SignupState) :
    (validateNameStep s).newUserData = s.newUserData := rfl

/-- `validateMail` keeps `newUserData`. -/
theorem newUserData_mailStep (s : SignupState) :
    (validateMailStep s).newUserData = s.newUserData := rfl

/-- `validateConfirmedPassword` keeps `newUserData`. -/
theorem newUserData_confirmStep (s : SignupState) :
    (validateConfirmedPasswordStep s).newUserData = s.newUserData := rfl

/-- `validatePassword` keeps `newUserData`. -/
theorem newUserData_pwStep (s : SignupState) :
    (validatePasswordStep s).newUserData = s.newUserData := by
  simp only [validatePasswordStep]
  split <;> rfl

/-- `validateForm` keeps `newUserData`. -/
theorem validateForm_newUserData (field : String) (s : SignupState) :
    (validateForm field s).newUserData = s.newUserData := by
  simp only [validateForm, newUserData_auto, apply_ite SignupState.newUserData,
    newUserData_nameStep, newUserData_mailStep, newUserData_pwStep,
    newUserData_confirmStep, ite_self]

/-- No operation writes `newUserData`. -/
theorem applyOp_newUserData (op : Op) (s : SignupState) :
    (applyOp op s).newUserData = s.newUserData := by
  cases op with
  | passwordInput f => cases f <;> rfl
  | toggleVisibility f =>
    cases f <;> simp only [applyOp, togglePasswordVisibility] <;> split <;> rfl
  | doRegister env => exact onRegister_newUserData env s
  | doValidateForm field => exact validateForm_newUserData field s
  | _ => rfl

/-- Along every trace from the initial state, `newUserData` keeps its
initial value. -/
theorem runOps_newUserData (ops : List Op) :
    ∀ s, (runOps ops s).newUserData = s.newUserData := by
  induction ops with
  | nil => intro s; rfl
  | cons op rest ih =>
    intro s
    show (runOps rest (applyOp op s)).newUserData = s.newUserData
    rw [ih (applyOp op s), applyOp_newUserData]

/-! ## Claims -/

/-- C1: `onRegister` attempts registration (calls the Auth Service's
`register`) exactly when the password field equals the confirmation field;
on a mismatch no registration call is made, whatever the other fields
hold. -/
theorem onRegister_register_iff_passwords_match (env : Env) (s : SignupState) :
    Eff.register s.email s.password s.name ∈ (onRegister env s).2 ↔
      s.password = s.passwordConfirm := by
  unfold onRegister
  by_cases h : s.password = s.passwordConfirm
  · rw [if_pos h]
    rcases env.registerResult with msg | u
    · simpa using h
    · by_cases hm : checkIfMailinUseInContact env s = true
      · rw [if_pos hm]
        simpa using h
      · rw [if_neg hm]
        rcases env.addContactResult with m2 | u2 <;> simpa using h
  · rw [if_neg h]
    simp [h]

/-- C2 (amended): after `validateForm('confirmPassword')`, the field
`'confirmPassword'` is in `invalidFields` exactly when the confirmation
differs from the password; the validator imposes no 6-character minimum on
the confirmation. -/
theorem confirm_invalid_iff_mismatch (s : SignupState) :
    ("confirmPassword" ∈ (validateForm "confirmPassword" s).invalidFields) ↔
      s.passwordConfirm ≠ s.password := by
  have h : (validateForm "confirmPassword" s).invalidFields =
      addFieldIfInvalid (confirmInvalid s) "confirmPassword" s.invalidFields := rfl
  rw [h, mem_addFieldIfInvalid]
  simp [confirmInvalid]

/-- C2 (counterexample to the claim as stated): with password and
confirmation both `"abc"` (equal but shorter than 6), the claimed
equivalence `in invalidFields ↔ (confirmation shorter than 6 or different)`
fails: the code removes `'confirmPassword'` from the invalid set although
the confirmation has fewer than 6 characters. -/
theorem confirm_six_chars_counterexample :
    ¬ (("confirmPassword" ∈
          (validateForm "confirmPassword"
            { initState with password := "abc", passwordConfirm := "abc" }).invalidFields) ↔
        (({ initState with password := "abc", passwordConfirm := "abc" } :
            SignupState).passwordConfirm.length < 6 ∨
         ({ initState with password := "abc", passwordConfirm := "abc" } :
            SignupState).passwordConfirm ≠
           ({ initState with password := "abc", passwordConfirm := "abc" } :
            SignupState).password)) := by
  have h : (validateForm "confirmPassword"
      { initState with password := "abc", passwordConfirm := "abc" }).invalidFields = [] := rfl
  rw [h]
  simp
  decide

/-- C3: whenever the Auth Service's `register` rejects during `onRegister`
(and the method reached the call), the component's error string becomes
exactly the thrown message, the rest of the state is untouched, and the only
service call made is the single `register` attempt: no contact write, no
navigation, no success notice, no retry. -/
theorem onRegister_error_sets_message (env : Env) (s : SignupState) (msg : String)
    (hpw : s.password = s.passwordConfirm)
    (herr : env.registerResult = Except.error msg) :
    (onRegister env s).1 = { s with error := msg } ∧
      (onRegister env s).2 = [Eff.register s.email s.password s.name] := by
  unfold onRegister
  rw [if_pos hpw, herr]
  exact ⟨rfl, rfl⟩

/-- Witness for C3 at a concrete state and a rejecting service. -/
theorem onRegister_error_sets_message_witness :
    (onRegister ⟨Except.error "boom", Except.ok (), [], fun e => e⟩
        { initState with name := "Ann", email := "a@b.cd",
                         password := "secret1", passwordConfirm := "secret1" }).1 =
      { initState with name := "Ann", email := "a@b.cd",
                       password := "secret1", passwordConfirm := "secret1",
                       error := "boom" } ∧
    (onRegister ⟨Except.error "boom", Except.ok (), [], fun e => e⟩
        { initState with name := "Ann", email := "a@b.cd",
                         password := "secret1", passwordConfirm := "secret1" }).2 =
      [Eff.register "a@b.cd" "secret1" "Ann"] :=
  onRegister_error_sets_message _ _ "boom" rfl rfl

/-- C4: after `validateForm` on any field, and likewise after
`validatePrivacy`, the show-privacy-error flag of the resulting state is
true exactly when its invalid-field set is empty, the overall validity check
`isFormValid` passes on it, and the privacy checkbox is unchecked. -/
theorem showPrivacyError_iff_ready (field : String) (s : SignupState) :
    ((validateForm field s).showPrivacyError = true ↔
      ((validateForm field s).invalidFields = [] ∧
       isFormValid (validateForm field s) = true ∧
       (validateForm field s).privacyAccepted = false)) ∧
    ((validatePrivacy s).showPrivacyError = true ↔
      ((validatePrivacy s).invalidFields = [] ∧
       isFormValid (validatePrivacy s) = true ∧
       (validatePrivacy s).privacyAccepted = false)) := by
  exact ⟨auto_showPrivacyError_iff _, auto_showPrivacyError_iff s⟩

/-- C5: in a successful registration run (matching passwords, both service
calls resolve), the contact write is skipped exactly when some contact in
the Contact Service's list carries the entered e-mail; otherwise the trace
contains exactly one `addContact`, with the entered name and e-mail and the
placeholder phone value. -/
theorem onRegister_contact_write (env : Env) (s : SignupState)
    (hpw : s.password = s.passwordConfirm)
    (hreg : env.registerResult = Except.ok ())
    (hadd : env.addContactResult = Except.ok ()) :
    ((onRegister env s).2.filter isAddContactEff =
        (if checkIfMailinUseInContact env s then []
         else [Eff.addContact ⟨s.name, s.email, "Not existing yet"⟩])) ∧
    (checkIfMailinUseInContact env s = true ↔
      ∃ c ∈ env.contactList, c.email = s.email) := by
  constructor
  · unfold onRegister
    rw [if_pos hpw, hreg]
    by_cases hm : checkIfMailinUseInContact env s = true
    · simp only [hm, if_true]
      rfl
    · simp only [hm, Bool.false_eq_true, if_neg hm, hadd]
      rfl
  · unfold checkIfMailinUseInContact
    simp

/-- Witness for C5: duplicate e-mail suppresses the write, fresh e-mail
produces exactly the placeholder contact. -/
theorem onRegister_contact_write_witness :
    (((onRegister ⟨Except.ok (), Except.ok (), [⟨"Bob", "a@b.cd", "1"⟩], fun e => e⟩
        { initState with name := "Ann", email := "a@b.cd",
                         password := "secret1", passwordConfirm := "secret1" }).2.filter
          isAddContactEff =
        (if checkIfMailinUseInContact
              ⟨Except.ok (), Except.ok (), [⟨"Bob", "a@b.cd", "1"⟩], fun e => e⟩
              { initState with name := "Ann", email := "a@b.cd",
                               password := "secret1", passwordConfirm := "secret1" } then []
         else [Eff.addContact ⟨"Ann", "a@b.cd", "Not existing yet"⟩])) ∧
      (checkIfMailinUseInContact
          ⟨Except.ok (), Except.ok (), [⟨"Bob", "a@b.cd", "1"⟩], fun e => e⟩
          { initState with name := "Ann", email := "a@b.cd",
                           password := "secret1", passwordConfirm := "secret1" } = true ↔
        ∃ c ∈ [(⟨"Bob", "a@b.cd", "1"⟩ : Contact)], c.email = "a@b.cd")) :=
  onRegister_contact_write _ _ rfl rfl rfl

/-- C6: the e-mail validity check accepts `user@domain.tld` and rejects
`user@domain`, whatever the rest of the state holds, and the
`isFormValid` conjunct (`emailRegexTest`) agrees on both inputs. -/
theorem email_pattern_accept_reject (s : SignupState) :
    ("email" ∉ (validateForm "email"
        { s with email := "user@domain.tld" }).invalidFields) ∧
    ("email" ∈ (validateForm "email"
        { s with email := "user@domain" }).invalidFields) ∧
    emailRegexTest "user@domain.tld" = true ∧
    emailRegexTest "user@domain" = false := by
  refine ⟨?_, ?_, rfl, rfl⟩
  · have h : (validateForm "email" { s with email := "user@domain.tld" }).invalidFields =
        addFieldIfInvalid false "email" s.invalidFields := rfl
    rw [h, mem_addFieldIfInvalid]
    simp
  · have h : (validateForm "email" { s with email := "user@domain" }).invalidFields =
        addFieldIfInvalid true "email" s.invalidFields := rfl
    rw [h, mem_addFieldIfInvalid]
    simp

/-- C7: along every operation sequence from the initial component state, a
field name is in the invalid-field set exactly when the most recent
validation check of that field reported it invalid, and names never checked
are absent; the ghost-threaded run agrees with the plain one. -/
theorem invalid_set_matches_last_check (ops : List Op) :
    (runOpsG ops initState []).1 = runOps ops initState ∧
      InvalidInv (runOpsG ops initState []).1 (runOpsG ops initState []).2 := by
  refine ⟨runOpsG_fst ops initState [], ?_⟩
  refine runOpsG_invariant ops initState [] ?_
  intro f
  simp [initState, List.lookup]

/-- C8: `onRegister` has no field-validity precondition beyond password
equality: from the all-empty initial state (every validator reports its
field invalid and `isFormValid` fails), it still calls the Auth Service's
`register` with those empty values, under every service behaviour. -/
theorem onRegister_no_validity_precondition (env : Env) :
    nameInvalid initState = true ∧ mailInvalid initState = true ∧
      passwordInvalid initState = true ∧ isFormValid initState = false ∧
      Eff.register initState.email initState.password initState.name ∈
        (onRegister env initState).2 := by
  refine ⟨rfl, rfl, rfl, rfl, ?_⟩
  unfold onRegister
  rw [if_pos (show initState.password = initState.passwordConfirm from rfl)]
  rcases env.registerResult with msg | u
  · simp
  · by_cases hm : checkIfMailinUseInContact env initState = true
    · rw [if_pos hm]
      simp
    · rw [if_neg hm]
      rcases env.addContactResult with m2 | u2 <;> simp

/-- C9: when the password differs from the confirmation, `onRegister` is a
complete no-op: the state (error string included) is returned unchanged and
no service is called. -/
theorem onRegister_mismatch_noop (env : Env) (s : SignupState)
    (h : s.password ≠ s.passwordConfirm) :
    onRegister env s = (s, []) := by
  unfold onRegister
  rw [if_neg h]

/-- Witness for C9 on a concrete mismatching state. -/
theorem onRegister_mismatch_noop_witness :
    onRegister ⟨Except.ok (), Except.ok (), [], fun e => e⟩
        { initState with password := "abcdef", passwordConfirm := "abcdeg" } =
      ({ initState with password := "abcdef", passwordConfirm := "abcdeg" }, []) :=
  onRegister_mismatch_noop _ _ (by decide)

/-- C10: `newUserData` keeps its all-empty initial value along every
operation sequence (no operation writes it), so the re-validation branch of
`validatePassword` is never taken and `validateForm('password')` never
changes whether `'confirmPassword'` is in the invalid-field set. -/
theorem newUserData_constant_password_validation_local (ops : List Op) :
    (runOps ops initState).newUserData = ⟨"", "", "", ""⟩ ∧
      (("confirmPassword" ∈
          (validateForm "password" (runOps ops initState)).invalidFields) ↔
        ("confirmPassword" ∈ (runOps ops initState).invalidFields)) := by
  have hnu : (runOps ops initState).newUserData = ⟨"", "", "", ""⟩ :=
    runOps_newUserData ops initState
  refine ⟨hnu, ?_⟩
  have hE : (runOps ops initState).newUserData.confirmPassword.isEmpty = true := by
    rw [hnu]
    rfl
  have h1 : (validateForm "password" (runOps ops initState)).invalidFields =
      (validatePasswordStep (runOps ops initState)).invalidFields := rfl
  have h2 : (validatePasswordStep (runOps ops initState)).invalidFields =
      addFieldIfInvalid (passwordInvalid (runOps ops initState)) "password"
        (runOps ops initState).invalidFields := by
    simp only [validatePasswordStep]
    rw [if_pos hE]
  rw [h1, h2, mem_addFieldIfInvalid]
  simp

end Signup
